import Mathlib

/-!
Shallow embedding of the Kiali login flow controller
(`src/pages/Login/LoginPage.tsx`): the local form state, the submit /
input-change / mount operations and the helper-message composition,
together with theorems about the spec's claims on this code.

TypeScript truthiness of a string (`!!s`) is modelled as `s ≠ ""`;
optional string props (`message?`, `postLoginErrorMsg?`) are modelled as
plain strings where `""` plays the role of both `undefined` and the empty
string (both are falsy in the source).  The required-but-guarded
`this.props.authenticate` callback is modelled by a presence flag
(`authenticatePresent`) plus an explicit `Effect.authenticate` record of
the values it is called with.
-/

namespace KialiLogin

/-- Enumeration `LoginStatus` from `store/Store.ts` (externally owned session status). -/
inductive LoginStatus where
  | logging
  | loggedIn
  | loggedOut
  | error
  | expired
  deriving DecidableEq, Repr

/-- Enumeration `AuthStrategy` from `types/Auth.ts`. -/
inductive AuthStrategy where
  | login
  | anonymous
  | openshift
  deriving DecidableEq, Repr

/-- The read-only `authenticationConfig` external configuration. -/
structure AuthenticationConfig where
  strategy : AuthStrategy
  authorizationEndpoint : String
  secretMissing : Bool
  deriving DecidableEq, Repr

/-- The externally supplied props of `LoginPage` that the embedded
operations read (`LoginProps`).  `authenticatePresent` models the
truthiness of the `authenticate` callback prop. -/
structure LoginProps where
  status : LoginStatus
  message : String
  authenticatePresent : Bool
  isPostLoginPerforming : Bool
  postLoginErrorMsg : String
  deriving DecidableEq, Repr

/-- The locally owned component state (`LoginState` in the source,
called FormState in the documentation). -/
structure LoginState where
  username : String
  password : String
  isValidUsername : Bool
  isValidPassword : Bool
  filledInputs : Bool
  showHelperText : Bool
  errorInput : String
  deriving DecidableEq, Repr

/-- The state installed by the constructor. -/
def initialState : LoginState :=
  { username := ""
    password := ""
    isValidUsername := true
    isValidPassword := true
    filledInputs := false
    showHelperText := false
    errorInput := "" }

/-- Observable side effects the component triggers on its collaborators
or the browser. -/
inductive Effect where
  | checkCredentials
  | focusUsernameInput
  | navigate (url : String)
  | authenticate (username : String) (password : String)
  deriving DecidableEq, Repr

/-- Mount operation `componentDidMount`: dispatch `checkCredentials`, then focus the
username input when the DOM element is present.  State is untouched. -/
def componentDidMount (s : LoginState) (loginInputPresent : Bool) :
    LoginState × List Effect :=
  (s, [Effect.checkCredentials] ++
        (if loginInputPresent then [Effect.focusUsernameInput] else []))

/-- Input-change operation `handleUsernameChange`. -/
def handleUsernameChange (s : LoginState) (value : String) : LoginState :=
  { s with username := value }

/-- Input-change operation `handlePasswordChange`. -/
def handlePasswordChange (s : LoginState) (passwordValue : String) : LoginState :=
  { s with password := passwordValue }

/-- The fixed prefix of the local validation message. -/
def invalidCredentialsMsg : String := "无效的登录凭证。"

/-- Variant appended when both username and password are empty. -/
def bothRequiredMsg : String := "用户名和密码为必填项。"

/-- Variant appended when the username is non-empty (password empty). -/
def passwordRequiredMsg : String := "密码是必填项。"

/-- Variant appended when the username is empty (password non-empty). -/
def usernameRequiredMsg : String := "用户名是必填项。"

/-- Submit operation `handleSubmit`: the submit transition.  Returns the new state and
the list of triggered effects, in order.  The openshift branch only
navigates; the local-credential branch first recomputes the validity
flags and `filledInputs`, then either calls `authenticate` (when both
fields are non-empty and the callback is present) or installs the
validation error message. -/
def handleSubmit (cfg : AuthenticationConfig) (props : LoginProps)
    (s : LoginState) : LoginState × List Effect :=
  if cfg.strategy = AuthStrategy.openshift then
    (s, [Effect.navigate cfg.authorizationEndpoint])
  else
    let s1 : LoginState :=
      { s with
        isValidUsername := s.username != ""
        isValidPassword := s.password != ""
        filledInputs := (s.username != "") && (s.password != "") }
    if s.username ≠ "" ∧ s.password ≠ "" ∧ props.authenticatePresent = true then
      ({ s1 with showHelperText := false, errorInput := "" },
       [Effect.authenticate s.username s.password])
    else
      let message : String :=
        invalidCredentialsMsg ++
          (if s.username = "" ∧ s.password = "" then bothRequiredMsg
           else if s.username ≠ "" then passwordRequiredMsg
           else usernameRequiredMsg)
      ({ s1 with
          showHelperText := true
          errorInput := message
          isValidUsername := false
          isValidPassword := false },
       [])

/-- The result of `renderMessage`: the empty string for a falsy message,
otherwise a styled span with the message text and its variant colour. -/
inductive Rendered where
  | empty
  | styled (text : String) (variant : String)
  deriving DecidableEq, Repr

/-- Rendering helper `renderMessage`: picks the variant from the explicit `type` argument
when given, otherwise `danger` when the login status is `error` or the
inputs were filled at the last submit, else `warning`. -/
def renderMessage (props : LoginProps) (s : LoginState) (message : String)
    (type : Option String) : Rendered :=
  if message = "" then Rendered.empty
  else
    let variant : String :=
      match type with
      | some t => t
      | none =>
          if props.status = LoginStatus.error ∨ s.filledInputs then "danger"
          else "warning"
    Rendered.styled message variant

/-- An element of the `messages` array built by `getHelperMessage`: either
the result of `renderMessage`, or the raw external status message pushed
without rendering. -/
inductive MsgItem where
  | rendered (r : Rendered)
  | raw (text : String)
  deriving DecidableEq, Repr

/-- The fixed missing-secret warning text. -/
def secretMissingMsg : String :=
  "Kiali的密码丢失。在管理员创建有效的密码之前，禁止用户访问Kiali。相关更多详细信息，请参阅Kiali文档。"

/-- The session-expired warning text. -/
def sessionExpiredMsg : String := "您的登录状态已过期或已在另一窗口中终止。"

/-- Message composition `getHelperMessage`: builds the list of helper messages by pushing, in
source order: the local validation error, the missing-secret warning, the
session-expired warning, the raw external status message, and the
post-login error message. -/
def getHelperMessage (cfg : AuthenticationConfig) (props : LoginProps)
    (s : LoginState) : List MsgItem :=
  let messages : List MsgItem := []
  let messages :=
    if s.showHelperText then
      messages ++ [MsgItem.rendered (renderMessage props s s.errorInput none)]
    else messages
  let messages :=
    if cfg.secretMissing then
      messages ++
        [MsgItem.rendered (renderMessage props s secretMissingMsg (some "danger"))]
    else messages
  let messages :=
    if props.status = LoginStatus.expired then
      messages ++
        [MsgItem.rendered (renderMessage props s sessionExpiredMsg (some "warning"))]
    else messages
  let messages :=
    if ¬cfg.secretMissing ∧ props.status = LoginStatus.error then
      messages ++ [MsgItem.raw props.message]
    else messages
  let messages :=
    if props.postLoginErrorMsg ≠ "" then
      messages ++
        [MsgItem.rendered (renderMessage props s props.postLoginErrorMsg none)]
    else messages
  messages

/-- A user-interaction event on the component (the operations that can
mutate `LoginState`). -/
inductive Op where
  | changeUsername (value : String)
  | changePassword (value : String)
  | submit (props : LoginProps)
  deriving DecidableEq, Repr

/-- Whether an operation is a submit attempt. -/
def isSubmitOp : Op → Bool
  | Op.submit _ => true
  | _ => false

/-- The state part of one operation. -/
def step (cfg : AuthenticationConfig) (s : LoginState) : Op → LoginState
  | Op.changeUsername v => handleUsernameChange s v
  | Op.changePassword v => handlePasswordChange s v
  | Op.submit props => (handleSubmit cfg props s).1

/-- States reachable from mount: run a list of operations from the
constructor state. -/
def runTrace (cfg : AuthenticationConfig) (ops : List Op) : LoginState :=
  ops.foldl (step cfg) initialState

/-- A message item carrying non-empty text (a message actually
displayed). -/
def nonEmptyItem : MsgItem → Bool
  | MsgItem.rendered Rendered.empty => false
  | MsgItem.rendered (Rendered.styled t _) => t ≠ ""
  | MsgItem.raw t => t ≠ ""

/-- There is a non-empty validation or status-derived message to display. -/
def hasDisplayMessage (cfg : AuthenticationConfig) (props : LoginProps)
    (s : LoginState) : Bool :=
  (getHelperMessage cfg props s).any nonEmptyItem

/-- Concrete configuration used in counterexamples and witnesses:
local-credential strategy, no missing secret. -/
def cfgLogin : AuthenticationConfig :=
  { strategy := AuthStrategy.login
    authorizationEndpoint := ""
    secretMissing := false }

/-- Concrete props with an expired session and nothing else set. -/
def propsExpired : LoginProps :=
  { status := LoginStatus.expired
    message := ""
    authenticatePresent := true
    isPostLoginPerforming := false
    postLoginErrorMsg := "" }

/-- Concrete props: logged out, authenticate callback present. -/
def propsPlain : LoginProps :=
  { status := LoginStatus.loggedOut
    message := ""
    authenticatePresent := true
    isPostLoginPerforming := false
    postLoginErrorMsg := "" }

/-- Concrete configuration with the openshift strategy. -/
def cfgOpenshift : AuthenticationConfig :=
  { strategy := AuthStrategy.openshift
    authorizationEndpoint := "https://idp.example/authorize"
    secretMissing := false }

/-- Pushing onto the end of an accumulator under a condition equals
appending a conditional singleton. -/
theorem append_if_singleton (m : List MsgItem) (c : Prop) [Decidable c]
    (x : MsgItem) :
    (if c then m ++ [x] else m) = m ++ (if c then [x] else []) := by
  split_ifs <;> simp

/-- Claim C1: `getHelperMessage` collects exactly the messages whose
conditions hold — (1) the local validation error when `showHelperText`,
(2) the fixed missing-secret warning when `secretMissing`, (3) the
session-expired warning when the status is `expired`, (4) the raw
external status message when the status is `error` and `secretMissing` is
not set, (5) the post-login error message when one is supplied — in that
fixed order, for every state and every combination of external props. -/
theorem getHelperMessage_fixed_order (cfg : AuthenticationConfig)
    (props : LoginProps) (s : LoginState) :
    getHelperMessage cfg props s =
      (if s.showHelperText then
        [MsgItem.rendered (renderMessage props s s.errorInput none)] else []) ++
      (if cfg.secretMissing then
        [MsgItem.rendered (renderMessage props s secretMissingMsg (some "danger"))]
       else []) ++
      (if props.status = LoginStatus.expired then
        [MsgItem.rendered (renderMessage props s sessionExpiredMsg (some "warning"))]
       else []) ++
      (if ¬cfg.secretMissing ∧ props.status = LoginStatus.error then
        [MsgItem.raw props.message] else []) ++
      (if props.postLoginErrorMsg ≠ "" then
        [MsgItem.rendered (renderMessage props s props.postLoginErrorMsg none)]
       else []) := by
  simp only [getHelperMessage, append_if_singleton]
  simp [List.append_assoc]

/-- Claim C2: under the local-credential strategy, submitting with both
username and password non-empty (and the authenticate callback present)
calls `authenticate` exactly once with exactly those values, clears
`showHelperText` and clears `errorInput`. -/
theorem submit_valid_calls_authenticate (cfg : AuthenticationConfig)
    (props : LoginProps) (s : LoginState)
    (hstrat : cfg.strategy = AuthStrategy.login)
    (hu : s.username ≠ "") (hp : s.password ≠ "")
    (hauth : props.authenticatePresent = true) :
    (handleSubmit cfg props s).2 = [Effect.authenticate s.username s.password] ∧
    (handleSubmit cfg props s).1.showHelperText = false ∧
    (handleSubmit cfg props s).1.errorInput = "" := by
  simp [handleSubmit, hstrat, hu, hp, hauth]

/-- Witness for C2 at concrete inputs. -/
theorem submit_valid_calls_authenticate_witness :
    (handleSubmit cfgLogin propsPlain
        { initialState with username := "admin", password := "pw" }).2 =
      [Effect.authenticate "admin" "pw"] := by
  have h := submit_valid_calls_authenticate cfgLogin propsPlain
    { initialState with username := "admin", password := "pw" }
    rfl (by decide) (by decide) rfl
  exact h.1

/-- Claim C3: under the local-credential strategy, submitting with at
least one empty field triggers no effect (in particular `authenticate` is
not called), sets both validity flags to false, sets `showHelperText`,
and sets `errorInput` to the fixed prefix followed by the variant chosen
by which fields are empty. -/
theorem submit_invalid_sets_error (cfg : AuthenticationConfig)
    (props : LoginProps) (s : LoginState)
    (hstrat : cfg.strategy = AuthStrategy.login)
    (h : s.username = "" ∨ s.password = "") :
    (handleSubmit cfg props s).2 = [] ∧
    (handleSubmit cfg props s).1.isValidUsername = false ∧
    (handleSubmit cfg props s).1.isValidPassword = false ∧
    (handleSubmit cfg props s).1.showHelperText = true ∧
    (handleSubmit cfg props s).1.errorInput =
      invalidCredentialsMsg ++
        (if s.username = "" ∧ s.password = "" then bothRequiredMsg
         else if s.password = "" then passwordRequiredMsg
         else usernameRequiredMsg) := by
  have hns : cfg.strategy ≠ AuthStrategy.openshift := by
    rw [hstrat]; exact fun hc => nomatch hc
  rcases h with h | h
  · by_cases hp : s.password = "" <;>
      simp [handleSubmit, hns, h, hp]
  · by_cases hu : s.username = "" <;>
      simp [handleSubmit, hns, h, hu]

/-- Witness for C3 at a concrete input (username filled, password empty). -/
theorem submit_invalid_sets_error_witness :
    (handleSubmit cfgLogin propsPlain
        { initialState with username := "admin" }).1.errorInput =
      invalidCredentialsMsg ++ passwordRequiredMsg := by
  have h := submit_invalid_sets_error cfgLogin propsPlain
    { initialState with username := "admin" } rfl (Or.inr rfl)
  simpa using h.2.2.2.2

/-- Claim C4: under the openshift strategy, submit leaves every field of
the form state unchanged, never calls `authenticate`, and its only effect
is navigating to the configured authorization endpoint. -/
theorem submit_openshift_only_navigates (cfg : AuthenticationConfig)
    (props : LoginProps) (s : LoginState)
    (hstrat : cfg.strategy = AuthStrategy.openshift) :
    (handleSubmit cfg props s).1 = s ∧
    (handleSubmit cfg props s).2 = [Effect.navigate cfg.authorizationEndpoint] := by
  simp [handleSubmit, hstrat]

/-- Witness for C4 at concrete inputs. -/
theorem submit_openshift_only_navigates_witness :
    (handleSubmit cfgOpenshift propsPlain initialState).1 = initialState ∧
    (handleSubmit cfgOpenshift propsPlain initialState).2 =
      [Effect.navigate "https://idp.example/authorize"] := by
  have h := submit_openshift_only_navigates cfgOpenshift propsPlain
    initialState rfl
  exact ⟨h.1, h.2⟩

/-- Claim C7: whenever `secretMissing` is true, the fixed secret-missing
warning (rendered as a danger message) is in the composed message list,
for every state and every combination of the other external props. -/
theorem secret_missing_warning_present (cfg : AuthenticationConfig)
    (props : LoginProps) (s : LoginState) (h : cfg.secretMissing = true) :
    MsgItem.rendered (Rendered.styled secretMissingMsg "danger") ∈
      getHelperMessage cfg props s := by
  have hr : renderMessage props s secretMissingMsg (some "danger") =
      Rendered.styled secretMissingMsg "danger" := by
    have : secretMissingMsg ≠ "" := by decide
    simp [renderMessage, this]
  simp only [getHelperMessage, h]
  split_ifs <;> simp_all

/-- Witness for C7 at concrete inputs. -/
theorem secret_missing_warning_present_witness :
    MsgItem.rendered (Rendered.styled secretMissingMsg "danger") ∈
      getHelperMessage { cfgLogin with secretMissing := true } propsPlain
        initialState :=
  secret_missing_warning_present { cfgLogin with secretMissing := true }
    propsPlain initialState rfl

/-- Claim C8: submitting invalid input is idempotent — with at least one
field empty, submitting a second time yields the same `errorInput` and
the same validity flags as the first submit (the message is overwritten,
never accumulated). -/
theorem submit_invalid_idempotent (cfg : AuthenticationConfig)
    (props : LoginProps) (s : LoginState)
    (hstrat : cfg.strategy = AuthStrategy.login)
    (h : s.username = "" ∨ s.password = "") :
    (handleSubmit cfg props (handleSubmit cfg props s).1).1.errorInput =
      (handleSubmit cfg props s).1.errorInput ∧
    (handleSubmit cfg props (handleSubmit cfg props s).1).1.isValidUsername =
      (handleSubmit cfg props s).1.isValidUsername ∧
    (handleSubmit cfg props (handleSubmit cfg props s).1).1.isValidPassword =
      (handleSubmit cfg props s).1.isValidPassword := by
  have hns : cfg.strategy ≠ AuthStrategy.openshift := by
    rw [hstrat]; exact fun hc => nomatch hc
  rcases h with h | h
  · by_cases hp : s.password = "" <;>
      simp [handleSubmit, hns, h, hp]
  · by_cases hu : s.username = "" <;>
      simp [handleSubmit, hns, h, hu]

/-- Witness for C8 at a concrete input (both fields empty). -/
theorem submit_invalid_idempotent_witness :
    (handleSubmit cfgLogin propsPlain
        (handleSubmit cfgLogin propsPlain initialState).1).1.errorInput =
      (handleSubmit cfgLogin propsPlain initialState).1.errorInput := by
  have h := submit_invalid_idempotent cfgLogin propsPlain initialState rfl
    (Or.inl rfl)
  exact h.1

/-- Claim C9: mount leaves the form state untouched and dispatches
`checkCredentials` exactly once, with or without a username input in the
document. -/
theorem mount_checks_credentials_once (s : LoginState)
    (loginInputPresent : Bool) :
    (componentDidMount s loginInputPresent).1 = s ∧
    ((componentDidMount s loginInputPresent).2.count Effect.checkCredentials)
      = 1 := by
  cases loginInputPresent <;> exact ⟨rfl, rfl⟩

/-- Claim C10: under the local-credential strategy, a submit with both
fields non-empty but with the `authenticate` callback absent takes the
validation-failure branch: no effect is triggered, `showHelperText`
becomes true, `errorInput` becomes the invalid-credentials message (here
the password-required variant, since the username is non-empty), and both
validity flags become false even though both inputs were filled. -/
theorem submit_without_authenticate_callback (cfg : AuthenticationConfig)
    (props : LoginProps) (s : LoginState)
    (hstrat : cfg.strategy = AuthStrategy.login)
    (hu : s.username ≠ "") (hp : s.password ≠ "")
    (hauth : props.authenticatePresent = false) :
    (handleSubmit cfg props s).2 = [] ∧
    (handleSubmit cfg props s).1.showHelperText = true ∧
    (handleSubmit cfg props s).1.errorInput =
      invalidCredentialsMsg ++ passwordRequiredMsg ∧
    (handleSubmit cfg props s).1.isValidUsername = false ∧
    (handleSubmit cfg props s).1.isValidPassword = false := by
  have hns : cfg.strategy ≠ AuthStrategy.openshift := by
    rw [hstrat]; exact fun hc => nomatch hc
  simp [handleSubmit, hns, hu, hp, hauth]

/-- Witness for C10 at concrete inputs. -/
theorem submit_without_authenticate_callback_witness :
    (handleSubmit cfgLogin { propsPlain with authenticatePresent := false }
        { initialState with username := "admin", password := "pw" }).2 = [] ∧
    (handleSubmit cfgLogin { propsPlain with authenticatePresent := false }
        { initialState with username := "admin", password := "pw" }).1.showHelperText
      = true := by
  have h := submit_without_authenticate_callback cfgLogin
    { propsPlain with authenticatePresent := false }
    { initialState with username := "admin", password := "pw" }
    rfl (by decide) (by decide) rfl
  exact ⟨h.1, h.2.1⟩

/-- Claim C5 as stated fails: at the reachable constructor state (the
empty trace) with an expired login status, a non-empty status-derived
message is displayed while `showHelperText` is false. -/
theorem showHelperText_iff_message_counterexample :
    ¬ ((runTrace cfgLogin []).showHelperText = true ↔
        hasDisplayMessage cfgLogin propsExpired (runTrace cfgLogin []) = true) := by
  decide

/-- The amended C5 invariant relating `showHelperText` to the local
validation message. -/
def helperTextInv (s : LoginState) : Prop :=
  s.showHelperText = true ↔ s.errorInput ≠ ""

/-- Every operation preserves the amended C5 invariant. -/
theorem step_helperTextInv (cfg : AuthenticationConfig) (s : LoginState)
    (op : Op) (h : helperTextInv s) : helperTextInv (step cfg s op) := by
  cases op with
  | changeUsername v => simpa [step, handleUsernameChange, helperTextInv] using h
  | changePassword v => simpa [step, handlePasswordChange, helperTextInv] using h
  | submit props =>
      simp only [step, handleSubmit, helperTextInv]
      split_ifs with h1 h2 h3 h4 <;>
        simp_all [helperTextInv, invalidCredentialsMsg, bothRequiredMsg,
          passwordRequiredMsg, usernameRequiredMsg]

/-- Claim C5, amended: across all reachable states, `showHelperText` is
true iff `errorInput` holds a non-empty local validation message (the
status-derived messages are composed independently of `showHelperText`). -/
theorem showHelperText_iff_errorInput (cfg : AuthenticationConfig)
    (ops : List Op) :
    (runTrace cfg ops).showHelperText = true ↔
      (runTrace cfg ops).errorInput ≠ "" := by
  suffices h : ∀ s : LoginState, helperTextInv s →
      helperTextInv (ops.foldl (step cfg) s) from
    h initialState (by simp [helperTextInv, initialState])
  induction ops with
  | nil => exact fun s hs => hs
  | cons op rest ih =>
      exact fun s hs => ih (step cfg s op) (step_helperTextInv cfg s op hs)

/-- Appending a non-submit operation to a trace neither creates nor
destroys a last-submit decomposition. -/
theorem lastSubmit_append_nonsubmit (l : List Op) (op : Op)
    (hop : isSubmitOp op = false) (P : List Op → Prop) :
    (∃ pre pr post, l ++ [op] = pre ++ Op.submit pr :: post ∧
        (∀ o ∈ post, isSubmitOp o = false) ∧ P pre) ↔
    (∃ pre pr post, l = pre ++ Op.submit pr :: post ∧
        (∀ o ∈ post, isSubmitOp o = false) ∧ P pre) := by
  constructor
  · rintro ⟨pre, pr, post, heq, hpost, hP⟩
    rcases List.eq_nil_or_concat' post with h0 | ⟨post2, x, hx⟩
    · subst h0
      have h2 := List.append_inj' heq (by simp)
      have hx : op = Op.submit pr := by
        have := h2.2
        simpa using this
      rw [hx] at hop
      exact absurd hop (by simp [isSubmitOp])
    · subst hx
      have heq2 : l ++ [op] = (pre ++ Op.submit pr :: post2) ++ [x] := by
        simpa using heq
      have h2 := List.append_inj' heq2 (by simp)
      exact ⟨pre, pr, post2, h2.1, fun o ho => hpost o (by simp [ho]), hP⟩
  · rintro ⟨pre, pr, post, heq, hpost, hP⟩
    refine ⟨pre, pr, post ++ [op], by rw [heq]; simp, ?_, hP⟩
    intro o ho
    rcases List.mem_append.mp ho with ho | ho
    · exact hpost o ho
    · simpa using (List.mem_singleton.mp ho) ▸ hop

/-- Appending a submit to a trace makes it the last submit: a
decomposition exists iff the property holds of the whole prefix. -/
theorem lastSubmit_append_submit (l : List Op) (pr : LoginProps)
    (P : List Op → Prop) :
    (∃ pre pr2 post, l ++ [Op.submit pr] = pre ++ Op.submit pr2 :: post ∧
        (∀ o ∈ post, isSubmitOp o = false) ∧ P pre) ↔ P l := by
  constructor
  · rintro ⟨pre, pr2, post, heq, hpost, hP⟩
    rcases List.eq_nil_or_concat' post with h0 | ⟨post2, x, hx⟩
    · subst h0
      have h2 := List.append_inj' heq (by simp)
      rw [h2.1]
      exact hP
    · subst hx
      have hx2 : x ∈ post2 ++ [x] := by simp
      have heq2 : l ++ [Op.submit pr] = (pre ++ Op.submit pr2 :: post2) ++ [x] := by
        simpa using heq
      have h2 := List.append_inj' heq2 (by simp)
      have hx3 : x = Op.submit pr := by
        have := h2.2
        simpa using this.symm
      have := hpost x hx2
      rw [hx3] at this
      exact absurd this (by simp [isSubmitOp])
  · intro hP
    exact ⟨l, pr, [], by simp, by simp, hP⟩

/-- Claim C6: under the local-credential strategy, after any trace of
operations from mount, `filledInputs` is true iff the trace contains a
submit and, at the moment of its last submit, both the username and the
password were non-empty.  In particular `filledInputs` is false at mount,
before any submit. -/
theorem filledInputs_iff_last_submit (cfg : AuthenticationConfig)
    (ops : List Op) (hstrat : cfg.strategy = AuthStrategy.login) :
    (runTrace cfg ops).filledInputs = true ↔
      ∃ pre pr post, ops = pre ++ Op.submit pr :: post ∧
        (∀ o ∈ post, isSubmitOp o = false) ∧
        ((runTrace cfg pre).username ≠ "" ∧ (runTrace cfg pre).password ≠ "") := by
  have hns : cfg.strategy ≠ AuthStrategy.openshift := by
    rw [hstrat]; exact fun hc => nomatch hc
  induction ops using List.reverseRecOn with
  | nil =>
      constructor
      · intro h
        rw [show runTrace cfg [] = initialState from rfl] at h
        exact absurd h (by decide)
      · rintro ⟨pre, pr, post, heq, -, -⟩
        exact absurd heq.symm (by simp)
  | append_singleton l op ih =>
      have hrun : runTrace cfg (l ++ [op]) = step cfg (runTrace cfg l) op := by
        simp [runTrace, List.foldl_append]
      cases op with
      | changeUsername v =>
          rw [hrun,
            lastSubmit_append_nonsubmit l (Op.changeUsername v) rfl
              (fun pre =>
                (runTrace cfg pre).username ≠ "" ∧ (runTrace cfg pre).password ≠ "")]
          exact ih
      | changePassword v =>
          rw [hrun,
            lastSubmit_append_nonsubmit l (Op.changePassword v) rfl
              (fun pre =>
                (runTrace cfg pre).username ≠ "" ∧ (runTrace cfg pre).password ≠ "")]
          exact ih
      | submit pr =>
          rw [hrun,
            lastSubmit_append_submit l pr
              (fun pre =>
                (runTrace cfg pre).username ≠ "" ∧ (runTrace cfg pre).password ≠ "")]
          simp only [step, handleSubmit, hns, if_neg hns]
          split_ifs with h1 <;> simp_all

/-- Witness for C6: a concrete trace whose last submit saw both fields
filled. -/
theorem filledInputs_iff_last_submit_witness :
    (runTrace cfgLogin
        [Op.changeUsername "admin", Op.changePassword "pw",
         Op.submit propsPlain]).filledInputs = true := by
  refine (filledInputs_iff_last_submit cfgLogin
      [Op.changeUsername "admin", Op.changePassword "pw", Op.submit propsPlain]
      rfl).mpr
    ⟨[Op.changeUsername "admin", Op.changePassword "pw"], propsPlain, [],
      rfl, by simp, by decide, by decide⟩

end KialiLogin
